import Mathlib

/-!
Verification of the nchp configuration synthesizer (`nchp/app.py`).

Strings from the Python source are modelled as `List Char` (for the parsing
and URL-rewriting layers, where the proofs are character-level) or as Lean
`String` (for the configuration record and the rendered document).  Python
dicts are modelled as association lists with Python's insertion-order /
overwrite-in-place assignment semantics.
-/

namespace NCHP

/-- Python dict assignment `d[k] = v`: if the key is present the value is
overwritten in place (keeping the key's original position), otherwise the
pair is appended at the end. -/
def dictInsert (d : List (List Char × List Char)) (k v : List Char) :
    List (List Char × List Char) :=
  if d.any (fun p => p.1 == k) then
    d.map (fun p => if p.1 == k then (k, v) else p)
  else
    d ++ [(k, v)]

/-- The observable content of the `print` in the `except` clause of
`parse_proxy_streams_string`: the message is formatted from the *whole*
input string `s` and the unpacking error `e` (whose text depends only on
how many pieces `mapping.split('=')` produced). -/
structure UnpackErr where
  whole : List Char
  arity : Nat
deriving DecidableEq

/-- The loop body of `parse_proxy_streams_string`: process the `';'`-split
pieces left to right; `proxy_port, target = mapping.split('=')` succeeds
exactly when the split has two pieces, and the first failure aborts the
loop (the exception is caught by the surrounding `try`). -/
def parseLoop (s : List Char) (acc : List (List Char × List Char)) :
    List (List Char) → List (List Char × List Char) × Option UnpackErr
  | [] => (acc, none)
  | e :: rest =>
    match e.splitOn '=' with
    | [k, v] => parseLoop s (dictInsert acc k v) rest
    | other => (acc, some ⟨s, other.length⟩)

/-- `parse_proxy_streams_string` (app.py lines 12-20): split on `';'`, split
each piece on `'='` into `proxy_port` and `target`, build the dict; on the
first malformed piece, print an error naming the whole string and return
the dict accumulated so far. -/
def parse_proxy_streams_string (s : List Char) :
    List (List Char × List Char) × Option UnpackErr :=
  parseLoop s [] (s.splitOn ';')

/-- A well-formed entry `publicPort "=" target`, rendered back to its
string form. -/
def streamEntry (p : List Char × List Char) : List Char :=
  p.1 ++ '=' :: p.2

/-- Folding Python dict assignment over a list of (port, target) pairs. -/
def dictOfPairs (pairs : List (List Char × List Char)) :
    List (List Char × List Char) :=
  pairs.foldl (fun d p => dictInsert d p.1 p.2) []

theorem intercalate_pair (x : Char) (k v : List Char) :
    [x].intercalate [k, v] = k ++ x :: v := by
  simp [List.intercalate, List.intersperse]

theorem splitOn_streamEntry {k v : List Char} (hk : '=' ∉ k) (hv : '=' ∉ v) :
    (k ++ '=' :: v).splitOn '=' = [k, v] := by
  have h := List.splitOn_intercalate [k, v] '='
    (by intro l hl; simp only [List.mem_cons, List.not_mem_nil, or_false] at hl
        rcases hl with rfl | rfl <;> assumption) (by simp)
  rwa [intercalate_pair] at h

/-- Entry strings built from `'='`-free pairs are consumed one by one,
accumulating dict inserts. -/
theorem parseLoop_goodPieces (s : List Char)
    (pairs : List (List Char × List Char)) (acc : List (List Char × List Char))
    (tail : List (List Char))
    (hf : ∀ p ∈ pairs, '=' ∉ p.1 ∧ '=' ∉ p.2) :
    parseLoop s acc (pairs.map streamEntry ++ tail)
      = parseLoop s (pairs.foldl (fun d p => dictInsert d p.1 p.2) acc) tail := by
  induction pairs generalizing acc with
  | nil => simp
  | cons p ps ih =>
    have hp := hf p (by simp)
    have hsp : (streamEntry p).splitOn '=' = [p.1, p.2] :=
      splitOn_streamEntry hp.1 hp.2
    simp only [List.map_cons, List.cons_append, parseLoop, hsp, List.foldl_cons]
    exact ih _ (fun q hq => hf q (by simp [hq]))

/-- A pair is semicolon-free and equals-free on both components. -/
def wfPair (p : List Char × List Char) : Prop :=
  '=' ∉ p.1 ∧ '=' ∉ p.2 ∧ ';' ∉ p.1 ∧ ';' ∉ p.2

instance (p : List Char × List Char) : Decidable (wfPair p) := by
  unfold wfPair; infer_instance

theorem semi_not_mem_streamEntry {p : List Char × List Char} (hp : wfPair p) :
    ';' ∉ streamEntry p := by
  rcases hp with ⟨-, -, h1, h2⟩
  simp only [streamEntry, List.mem_append, List.mem_cons]
  rintro (h | h | h)
  · exact h1 h
  · exact absurd h (by decide)
  · exact h2 h

/-- On a piece whose `'='`-split does not have exactly two components, the
loop stops, returning the accumulator and an error naming the whole input. -/
theorem parseLoop_badPiece (s : List Char) (acc : List (List Char × List Char))
    (bad : List Char) (rest : List (List Char))
    (hbad : (bad.splitOn '=').length ≠ 2) :
    parseLoop s acc (bad :: rest) = (acc, some ⟨s, (bad.splitOn '=').length⟩) := by
  rcases hsp : bad.splitOn '=' with _ | ⟨k, _ | ⟨v, _ | ⟨w, tl⟩⟩⟩
  · simp [parseLoop, hsp]
  · simp [parseLoop, hsp]
  · exact absurd (by rw [hsp]; rfl) hbad
  · simp [parseLoop, hsp]

/-- The full behavior of `parse_proxy_streams_string` on a string made of
well-formed entries followed by a malformed entry: the dict of the
well-formed leading entries is returned together with the logged error. -/
theorem parse_bad_entry
    (pairs : List (List Char × List Char)) (bad : List Char)
    (rest : List (List Char))
    (hf : ∀ p ∈ pairs, wfPair p)
    (hbad : (bad.splitOn '=').length ≠ 2) (hbs : ';' ∉ bad)
    (hrest : ∀ r ∈ rest, ';' ∉ r) :
    parse_proxy_streams_string ([';'].intercalate (pairs.map streamEntry ++ bad :: rest))
      = (dictOfPairs pairs,
         some ⟨[';'].intercalate (pairs.map streamEntry ++ bad :: rest),
               (bad.splitOn '=').length⟩) := by
  unfold parse_proxy_streams_string
  rw [List.splitOn_intercalate (pairs.map streamEntry ++ bad :: rest) ';'
    (by
      intro l hl
      rcases List.mem_append.1 hl with h | h
      · obtain ⟨p, hp, rfl⟩ := List.mem_map.1 h
        exact semi_not_mem_streamEntry (hf p hp)
      · rcases List.mem_cons.1 h with rfl | h
        · exact hbs
        · exact hrest l h)
    (by simp)]
  rw [parseLoop_goodPieces _ pairs [] (bad :: rest)
    (fun p hp => ⟨(hf p hp).1, (hf p hp).2.1⟩)]
  exact parseLoop_badPiece _ _ _ _ hbad

/-- Claim C4: for every well-formed `';'`-separated stream-specification
string, parsing yields the dict built left to right with Python-dict
last-wins assignment semantics, with no error; `"80=x;80=y"` yields
`{80: y}`; and the empty input string yields the empty mapping. -/
theorem C4_parse_wellformed
    (pairs : List (List Char × List Char)) (hne : pairs ≠ [])
    (hf : ∀ p ∈ pairs, wfPair p) :
    parse_proxy_streams_string ([';'].intercalate (pairs.map streamEntry))
        = (dictOfPairs pairs, none)
    ∧ parse_proxy_streams_string "80=x;80=y".toList = ([("80".toList, "y".toList)], none)
    ∧ (parse_proxy_streams_string []).1 = [] := by
  refine ⟨?_, by decide, by decide⟩
  unfold parse_proxy_streams_string
  rw [List.splitOn_intercalate (pairs.map streamEntry) ';'
    (by
      intro l hl
      obtain ⟨p, hp, rfl⟩ := List.mem_map.1 hl
      exact semi_not_mem_streamEntry (hf p hp))
    (by simpa using hne)]
  have h := parseLoop_goodPieces ([';'].intercalate (pairs.map streamEntry))
    pairs [] [] (fun p hp => ⟨(hf p hp).1, (hf p hp).2.1⟩)
  rw [List.append_nil] at h
  rw [h]
  rfl

/-- Claim C4 witness: `"a=b;c=d"` parses to `{a: b, c: d}` with no error. -/
theorem C4_witness :
    parse_proxy_streams_string ([';'].intercalate
        ([("a".toList, "b".toList), ("c".toList, "d".toList)].map streamEntry))
      = (dictOfPairs [("a".toList, "b".toList), ("c".toList, "d".toList)], none)
    ∧ parse_proxy_streams_string "a=b;c=d".toList
      = ([("a".toList, "b".toList), ("c".toList, "d".toList)], none) :=
  ⟨(C4_parse_wellformed [("a".toList, "b".toList), ("c".toList, "d".toList)]
      (by decide) (by decide)).1,
   by decide⟩

/-- Claim C9: the parser is a total function (it returns a pair, never
propagating the unpacking exception, which is caught by the `try` block);
when an entry fails to parse, the result is exactly the dict accumulated
from the entries before the offending one, together with the logged
error. -/
theorem C9_parse_total_result
    (pairs : List (List Char × List Char)) (bad : List Char)
    (rest : List (List Char))
    (hf : ∀ p ∈ pairs, wfPair p)
    (hbad : (bad.splitOn '=').length ≠ 2) (hbs : ';' ∉ bad)
    (hrest : ∀ r ∈ rest, ';' ∉ r) :
    parse_proxy_streams_string ([';'].intercalate (pairs.map streamEntry ++ bad :: rest))
      = (dictOfPairs pairs,
         some ⟨[';'].intercalate (pairs.map streamEntry ++ bad :: rest),
               (bad.splitOn '=').length⟩) :=
  parse_bad_entry pairs bad rest hf hbad hbs hrest

/-- Claim C9 witness: `"90=10.0.0.2:800;xx"` returns the mapping for port
90 (accumulated before the malformed entry `"xx"`) plus the logged error. -/
theorem C9_witness :
    parse_proxy_streams_string "90=10.0.0.2:800;xx".toList
      = ([("90".toList, "10.0.0.2:800".toList)],
         some ⟨"90=10.0.0.2:800;xx".toList, 1⟩) := by
  have h := C9_parse_total_result [("90".toList, "10.0.0.2:800".toList)]
    "xx".toList [] (by decide) (by decide) (by decide) (by simp)
  exact (by decide : parse_proxy_streams_string "90=10.0.0.2:800;xx".toList
      = parse_proxy_streams_string ([';'].intercalate
          ([("90".toList, "10.0.0.2:800".toList)].map streamEntry ++ "xx".toList :: []))).trans
    (h.trans (by decide))

/-- Claim C1 counterexample: on `"a=b;cd"` (which contains the malformed
entry `"cd"`), the parser does not reject the whole string: it returns the
partial mapping `{a: b}` as its normal result, and the logged message is
built from the whole input string, not from the offending entry. -/
theorem C1_counterexample :
    (parse_proxy_streams_string "a=b;cd".toList).1 = [("a".toList, "b".toList)]
    ∧ (parse_proxy_streams_string "a=b;cd".toList).2 = some ⟨"a=b;cd".toList, 1⟩ := by
  decide

/-- Claim C1 (amended): on a stream-specification string containing a
malformed entry (no single `'='`), the parser does not fail: it logs an
error message naming the whole input string (not the offending entry) and
returns, as a normal result, the partial mapping accumulated from the
entries before the offending one. -/
theorem C1_amended_log_names_whole
    (pairs : List (List Char × List Char)) (bad : List Char)
    (rest : List (List Char))
    (hf : ∀ p ∈ pairs, wfPair p)
    (hbad : (bad.splitOn '=').length ≠ 2) (hbs : ';' ∉ bad)
    (hrest : ∀ r ∈ rest, ';' ∉ r) :
    ((parse_proxy_streams_string
        ([';'].intercalate (pairs.map streamEntry ++ bad :: rest))).2).map UnpackErr.whole
      = some ([';'].intercalate (pairs.map streamEntry ++ bad :: rest))
    ∧ (parse_proxy_streams_string
        ([';'].intercalate (pairs.map streamEntry ++ bad :: rest))).1
      = dictOfPairs pairs := by
  rw [parse_bad_entry pairs bad rest hf hbad hbs hrest]
  exact ⟨rfl, rfl⟩

/-- Claim C1 (amended) witness: `"p=q;x=y=z"` logs an error naming the
whole string and returns `{p: q}`. -/
theorem C1_amended_witness :
    ((parse_proxy_streams_string "p=q;x=y=z".toList).2).map UnpackErr.whole
      = some ("p=q;x=y=z".toList)
    ∧ (parse_proxy_streams_string "p=q;x=y=z".toList).1 = [("p".toList, "q".toList)] := by
  have h := C1_amended_log_names_whole [("p".toList, "q".toList)]
    "x=y=z".toList [] (by decide) (by decide) (by decide) (by simp)
  exact ⟨(by decide : ((parse_proxy_streams_string "p=q;x=y=z".toList).2).map UnpackErr.whole
      = ((parse_proxy_streams_string ([';'].intercalate
          ([("p".toList, "q".toList)].map streamEntry ++ "x=y=z".toList :: []))).2).map
            UnpackErr.whole).trans (h.1.trans (by decide)),
    (by decide : (parse_proxy_streams_string "p=q;x=y=z".toList).1
      = (parse_proxy_streams_string ([';'].intercalate
          ([("p".toList, "q".toList)].map streamEntry ++ "x=y=z".toList :: []))).1).trans
      (h.2.trans (by decide))⟩

/-- Does `p` occur at the head of `s`? (`s.startswith(p)`). -/
def lStarts : List Char → List Char → Bool
  | [], _ => true
  | _ :: _, [] => false
  | p :: ps, c :: cs => p == c && lStarts ps cs

/-- The characters of the literal `'localhost'` replaced by the code. -/
def lhChars : List Char := ['l', 'o', 'c', 'a', 'l', 'h', 'o', 's', 't']

/-- The characters of the replacement literal `'127.0.0.1'`. -/
def ipChars : List Char := ['1', '2', '7', '.', '0', '.', '0', '.', '1']

/-- Fuel-indexed scan for `str.replace('localhost', '127.0.0.1')`; the
fuel only serves to make the recursion structural and is irrelevant as
long as it is at least the length of the list. -/
def replaceFuel : Nat → List Char → List Char
  | _, [] => []
  | 0, s => s
  | fuel + 1, c :: rest =>
    if lStarts lhChars (c :: rest)
    then ipChars ++ replaceFuel fuel (rest.drop 8)
    else c :: replaceFuel fuel rest

theorem replaceFuel_congr (f₁ : Nat) : ∀ (f₂ : Nat) (s : List Char),
    s.length ≤ f₁ → s.length ≤ f₂ → replaceFuel f₁ s = replaceFuel f₂ s := by
  induction f₁ with
  | zero =>
    intro f₂ s h₁ h₂
    cases s with
    | nil => cases f₂ <;> rfl
    | cons c rest => simp at h₁
  | succ g₁ ih =>
    intro f₂ s h₁ h₂
    cases s with
    | nil => cases f₂ <;> rfl
    | cons c rest =>
      cases f₂ with
      | zero => simp at h₂
      | succ g₂ =>
        simp only [List.length_cons, Nat.add_le_add_iff_right] at h₁ h₂
        have hd := List.length_drop 8 rest
        simp only [replaceFuel]
        by_cases hs : lStarts lhChars (c :: rest) = true
        · rw [if_pos hs, if_pos hs, ih g₂ (rest.drop 8) (by omega) (by omega)]
        · rw [if_neg hs, if_neg hs, ih g₂ rest h₁ h₂]

/-- Python `str.replace('localhost', '127.0.0.1')`: scan left to right,
replacing each non-overlapping occurrence. -/
def replaceLocalhost (s : List Char) : List Char := replaceFuel s.length s

/-- The intended recursion equation of `replaceLocalhost`. -/
theorem replaceLocalhost_cons (c : Char) (rest : List Char) :
    replaceLocalhost (c :: rest)
      = if lStarts lhChars (c :: rest)
        then ipChars ++ replaceLocalhost (rest.drop 8)
        else c :: replaceLocalhost rest := by
  unfold replaceLocalhost
  have hd := List.length_drop 8 rest
  simp only [List.length_cons, replaceFuel]
  by_cases hs : lStarts lhChars (c :: rest) = true
  · rw [if_pos hs, if_pos hs,
      replaceFuel_congr rest.length (rest.drop 8).length (rest.drop 8) (by omega) (by omega)]
  · rw [if_neg hs, if_neg hs]

/-- `s` contains no occurrence of `'localhost'`. -/
def lhFree : List Char → Bool
  | [] => true
  | c :: rest => !lStarts lhChars (c :: rest) && lhFree rest

theorem lStarts_self_append (p t : List Char) : lStarts p (p ++ t) = true := by
  induction p with
  | nil => rfl
  | cons c cs ih => simp [lStarts, ih]

theorem lStarts_append_right {p s : List Char} (t : List Char)
    (h : lStarts p s = true) : lStarts p (s ++ t) = true := by
  induction p generalizing s with
  | nil => rfl
  | cons c cs ih =>
    cases s with
    | nil => exact absurd h (by simp [lStarts])
    | cons d ds =>
      simp only [lStarts, Bool.and_eq_true, beq_iff_eq] at h
      simp [lStarts, h.1, ih h.2]

theorem eq_append_drop_of_lStarts {p s : List Char} (h : lStarts p s = true) :
    s = p ++ s.drop p.length := by
  induction p generalizing s with
  | nil => simp
  | cons c cs ih =>
    cases s with
    | nil => exact absurd h (by simp [lStarts])
    | cons d ds =>
      simp only [lStarts, Bool.and_eq_true, beq_iff_eq] at h
      simpa [h.1] using ih h.2

theorem replaceLocalhost_head (rest : List Char) :
    replaceLocalhost (lhChars ++ rest) = ipChars ++ replaceLocalhost rest := by
  have h : lStarts lhChars (lhChars ++ rest) = true := lStarts_self_append _ _
  have he : lhChars ++ rest
      = 'l' :: ('o' :: 'c' :: 'a' :: 'l' :: 'h' :: 'o' :: 's' :: 't' :: rest) := rfl
  rw [he] at h ⊢
  rw [replaceLocalhost_cons, if_pos h]
  rfl

theorem replaceLocalhost_of_lhFree {s : List Char} (h : lhFree s = true) :
    replaceLocalhost s = s := by
  induction s with
  | nil => rfl
  | cons c rest ih =>
    simp only [lhFree, Bool.and_eq_true, Bool.not_eq_eq_eq_not, Bool.not_true] at h
    rw [replaceLocalhost_cons, if_neg (by simp [h.1]), ih h.2]

theorem replaceLocalhost_ne_of_not_lhFree {s : List Char} (h : lhFree s = false) :
    replaceLocalhost s ≠ s := by
  induction s with
  | nil => exact absurd h (by decide)
  | cons c rest ih =>
    simp only [lhFree, Bool.and_eq_false_iff, Bool.not_eq_false] at h
    have hlen : lhChars.length = ipChars.length := by decide
    rcases hstart : lStarts lhChars (c :: rest) with hf | ht
    · rw [replaceLocalhost_cons, if_neg (by simp [hstart])]
      rcases h with h | h
      · simp [hstart] at h
      · intro hcontra
        exact ih h (by simpa using hcontra)
    · rw [replaceLocalhost_cons, if_pos hstart]
      intro hcontra
      have hs := eq_append_drop_of_lStarts hstart
      have := List.append_inj (hcontra.trans hs) hlen.symm
      exact absurd this.1 (by decide)

/-- Characters permitted in a URL scheme (`urllib.parse.scheme_chars`). -/
def schemeChar (c : Char) : Bool :=
  c.isAlpha || c.isDigit || c == '+' || c == '-' || c == '.'

/-- Index of the first occurrence of `c` in the list (`url.find(c)`), if any. -/
def findChar (c : Char) : List Char → Option Nat
  | [] => none
  | x :: xs => if x == c then some 0 else (findChar c xs).map (· + 1)

/-- `l.split(c, 1)` when `c ∈ l`: the part before the first `c` and the
part after it. -/
def splitFirst (c : Char) : List Char → List Char × List Char
  | [] => ([], [])
  | x :: xs =>
    if x == c then ([], xs)
    else
      let r := splitFirst c xs
      (x :: r.1, r.2)

/-- A character that does not end the netloc section (`_splitnetloc` stops
at the first of `'/'`, `'?'`, `'#'`). -/
def netlocChar (c : Char) : Bool :=
  !(c == '/' || c == '?' || c == '#')

/-- The five components returned by `urllib.parse.urlsplit`. -/
structure SplitResult where
  scheme : List Char
  netloc : List Char
  path : List Char
  query : List Char
  fragment : List Char
deriving DecidableEq

/-- `urllib.parse.urlsplit` (Python 3.5, `allow_fragments=True`), as called
by `build_nginx_conf`: extract a scheme when the text before the first
`':'` is a nonempty run of scheme characters and the text after it is not
a plain port number; extract the netloc after a leading `'//'` up to the
first `'/'`, `'?'` or `'#'`; then split off the fragment at the first
`'#'` and the query at the first `'?'`.  (CPython additionally raises
`ValueError` on a netloc with unbalanced square brackets; the theorems
below restrict their hypotheses to bracket-free netlocs, where this model
agrees with CPython.) -/
def urlsplit (url : List Char) : SplitResult :=
  let sr : List Char × List Char :=
    match findChar ':' url with
    | some i =>
      if 0 < i ∧ (url.take i).all schemeChar
          ∧ (url.drop (i + 1) = [] ∨ (url.drop (i + 1)).all Char.isDigit = false)
      then ((url.take i).map Char.toLower, url.drop (i + 1))
      else ([], url)
    | none => ([], url)
  let scheme := sr.1
  let nr : List Char × List Char :=
    if sr.2.take 2 = ['/', '/'] then
      ((sr.2.drop 2).takeWhile netlocChar, (sr.2.drop 2).dropWhile netlocChar)
    else ([], sr.2)
  let netloc := nr.1
  let fr : List Char × List Char :=
    if '#' ∈ nr.2 then splitFirst '#' nr.2 else (nr.2, [])
  let qr : List Char × List Char :=
    if '?' ∈ fr.1 then splitFirst '?' fr.1 else (fr.1, [])
  ⟨scheme, netloc, qr.1, qr.2, fr.2⟩

/-- `urllib.parse.urlunsplit`. -/
def urlunsplit (r : SplitResult) : List Char :=
  let url0 := r.path
  let url1 :=
    if r.netloc ≠ [] ∨ (url0 ≠ [] ∧ url0.take 2 = ['/', '/']) then
      '/' :: '/' :: (r.netloc ++
        (if url0 ≠ [] ∧ url0.take 1 ≠ ['/'] then '/' :: url0 else url0))
    else url0
  let url2 := if r.scheme ≠ [] then r.scheme ++ ':' :: url1 else url1
  let url3 := if r.query ≠ [] then url2 ++ '?' :: r.query else url2
  if r.fragment ≠ [] then url3 ++ '#' :: r.fragment else url3

/-- Lines 237-243 of app.py: when a default target is configured
(`if self.default_target:` — the empty string is falsy), split it, replace
`'localhost'` with `'127.0.0.1'` in the netloc component, and reassemble;
otherwise leave it alone. -/
def normalize_target (t : List Char) : List Char :=
  if t = [] then t
  else
    let parts := urlsplit t
    urlunsplit ⟨parts.scheme, replaceLocalhost parts.netloc,
                parts.path, parts.query, parts.fragment⟩

example : urlsplit "http://localhost:8000/".toList
    = ⟨"http".toList, "localhost:8000".toList, "/".toList, [], []⟩ := by decide

/-- Claim C3: for a configured default target whose host component is
exactly `localhost` (the netloc is `localhost` followed by nothing or by a
`':'`-led port that contains no further `localhost` occurrence), the
rewritten target is reassembled from the same scheme, path, query and
fragment, with only the netloc changed: `localhost` becomes `127.0.0.1`
and the rest of the netloc (the port) is kept.  A `localhost` literal in
the path component is passed through untouched.  When no default target is
configured (`default_target` empty, hence falsy), normalization is a
no-op. -/
theorem C3_localhost_host_rewritten
    (t sch rest p q f : List Char)
    (ht : t ≠ [])
    (hsplit : urlsplit t = ⟨sch, lhChars ++ rest, p, q, f⟩)
    (hhost : rest = [] ∨ rest.take 1 = [':'])
    (hfree : lhFree rest = true)
    (hbr : '[' ∉ rest ∧ ']' ∉ rest) :
    normalize_target t = urlunsplit ⟨sch, ipChars ++ rest, p, q, f⟩
    ∧ normalize_target [] = [] := by
  refine ⟨?_, rfl⟩
  unfold normalize_target
  rw [if_neg ht, hsplit]
  show urlunsplit ⟨sch, replaceLocalhost (lhChars ++ rest), p, q, f⟩
      = urlunsplit ⟨sch, ipChars ++ rest, p, q, f⟩
  rw [replaceLocalhost_head, replaceLocalhost_of_lhFree hfree]

/-- Claim C3 witness: `http://localhost:8000/localhost` has its host
rewritten while the `localhost` in the path is untouched. -/
theorem C3_witness :
    normalize_target "http://localhost:8000/localhost".toList
      = "http://127.0.0.1:8000/localhost".toList := by
  have h := (C3_localhost_host_rewritten "http://localhost:8000/localhost".toList
    "http".toList ":8000".toList "/localhost".toList [] []
    (by decide) (by decide) (by decide) (by decide) (by decide)).1
  exact h.trans (by decide)

/-- Claim C2 counterexample: `http://mylocalhost.example:80/`, whose host
merely contains `localhost` as a proper substring, is NOT left unchanged
by target normalization. -/
theorem C2_counterexample :
    normalize_target "http://mylocalhost.example:80/".toList
      ≠ "http://mylocalhost.example:80/".toList := by decide

/-- Claim C2 (amended): target normalization performs a plain substring
replacement of `localhost` by `127.0.0.1` on the whole netloc component
(reassembling the URL with scheme, path, query and fragment passed
through); consequently a netloc containing `localhost` anywhere — also as
a proper substring of a longer host name — is always changed, and in
particular `http://mylocalhost.example:80/` becomes
`http://my127.0.0.1.example:80/`. -/
theorem C2_amended_substring_replace
    (t sch nl p q f : List Char)
    (ht : t ≠ [])
    (hsplit : urlsplit t = ⟨sch, nl, p, q, f⟩)
    (hbr : '[' ∉ nl ∧ ']' ∉ nl) :
    normalize_target t = urlunsplit ⟨sch, replaceLocalhost nl, p, q, f⟩
    ∧ (lhFree nl = false → replaceLocalhost nl ≠ nl)
    ∧ normalize_target "http://mylocalhost.example:80/".toList
      = "http://my127.0.0.1.example:80/".toList := by
  refine ⟨?_, fun h => replaceLocalhost_ne_of_not_lhFree h, by decide⟩
  unfold normalize_target
  rw [if_neg ht, hsplit]

/-- Claim C2 (amended) witness. -/
theorem C2_amended_witness :
    normalize_target "http://mylocalhost.example:80/".toList
      = urlunsplit ⟨"http".toList,
          replaceLocalhost "mylocalhost.example:80".toList, "/".toList, [], []⟩
    ∧ replaceLocalhost "mylocalhost.example:80".toList ≠ "mylocalhost.example:80".toList := by
  have h := C2_amended_substring_replace "http://mylocalhost.example:80/".toList
    "http".toList "mylocalhost.example:80".toList "/".toList [] []
    (by decide) (by decide) (by decide)
  exact ⟨h.1, h.2.1 (by decide)⟩

/-- The configurable state of `NCHPApp` (one field per trait, with the
trait defaults from app.py; the dynamically computed defaults —
`dns_resolver` from `get_nameservers()`, `proxy_streams` and `auth_token`
from the process environment — are modelled as values already present in
the record, since traitlets resolves them at construction time). -/
structure NCHPApp where
  config_file : String := ""
  dns_resolver : String := ""
  public_ip : String := "0.0.0.0"
  public_port : Int := 8000
  default_target : String := ""
  api_port : Int := 8001
  api_ip : String := "127.0.0.1"
  proxy_streams : String := ""
  auth_token : String := ""
  nginx_path : String := "/usr/sbin/nginx"
  public_ssl_cert : String := ""
  public_ssl_key : String := ""
  public_ssl_ciphers : String :=
    "ECDHE-ECDSA-AES128-GCM-SHA256:ECDHE-RSA-AES128-GCM-SHA256:ECDHE-ECDSA-AES256-GCM-SHA384:ECDHE-RSA-AES256-GCM-SHA384:DHE-RSA-AES128-GCM-SHA256:DHE-RSA-AES256-GCM-SHA384"
  public_ssl_dhparam : String := ""
  api_ssl_cert : String := ""
  api_ssl_key : String := ""
  api_ssl_ciphers : String :=
    "ECDHE-ECDSA-AES128-GCM-SHA256:ECDHE-RSA-AES128-GCM-SHA256:ECDHE-ECDSA-AES256-GCM-SHA384:ECDHE-RSA-AES256-GCM-SHA384:DHE-RSA-AES128-GCM-SHA256:DHE-RSA-AES256-GCM-SHA384"
  api_ssl_dhparam : String := ""
  error_path : String := ""
  error_target : String := ""
  extra_public_nginx_config : String := ""
  client_max_body_size : String := "256M"
deriving DecidableEq

/-- The ambient process state read (or, for the last two fields,
pointedly NOT read) during config synthesis: the `stat` mode of
`/dev/stdout`, the wall clock, and a source of randomness. -/
structure Env where
  stdoutMode : Nat
  wallClock : Nat
  randomSeed : Nat
deriving DecidableEq

/-- `stat.S_ISSOCK`: the file-type bits of the mode equal `S_IFSOCK`. -/
def S_ISSOCK (m : Nat) : Bool := decide (Nat.land m 0o170000 = 0o140000)

/-- `access_log_dest` (app.py lines 178-201): if `/dev/stdout` is a
stream socket, log to syslog; otherwise log to the plain path. -/
def access_log_dest (stdoutMode : Nat) : String :=
  if S_ISSOCK stdoutMode then "syslog:server=unix:/dev/log,nohostname"
  else "/dev/stdout"

/-- The template-rendering context assembled at app.py lines 264-288 (one
field per key of the `context` dict). -/
structure RenderContext where
  proxy_streams : List (List Char × List Char)
  dns_resolver : String
  access_log_dest : String
  public_port : Int
  public_ip : String
  api_port : Int
  api_ip : String
  authtoken : String
  default_target : String
  api_ssl : Bool
  public_ssl : Bool
  public_ssl_cert : String
  public_ssl_key : String
  public_ssl_ciphers : String
  public_ssl_dhparam : String
  api_ssl_cert : String
  api_ssl_key : String
  api_ssl_ciphers : String
  api_ssl_dhparam : String
  error_path : String
  error_target : String
  extra_public_nginx_config : String
  client_max_body_size : String
deriving DecidableEq

/-- String form of `normalize_target` (app.py lines 237-243). -/
def normalizeStr (s : String) : String := ⟨normalize_target s.data⟩

/-- Lines 237-288 of `build_nginx_conf`: normalize the default target,
derive the two TLS booleans from the certificate paths, rewrite empty
listener hosts to the IPv4 any-address, parse the proxy streams, and
assemble the context dict. -/
def buildContext (app : NCHPApp) (env : Env) : RenderContext where
  proxy_streams := (parse_proxy_streams_string app.proxy_streams.data).1
  dns_resolver := app.dns_resolver
  access_log_dest := access_log_dest env.stdoutMode
  public_port := app.public_port
  public_ip := if app.public_ip = "" then "0.0.0.0" else app.public_ip
  api_port := app.api_port
  api_ip := if app.api_ip = "" then "0.0.0.0" else app.api_ip
  authtoken := app.auth_token
  default_target := normalizeStr app.default_target
  api_ssl := decide (app.api_ssl_cert ≠ "")
  public_ssl := decide (app.public_ssl_cert ≠ "")
  public_ssl_cert := app.public_ssl_cert
  public_ssl_key := app.public_ssl_key
  public_ssl_ciphers := app.public_ssl_ciphers
  public_ssl_dhparam := app.public_ssl_dhparam
  api_ssl_cert := app.api_ssl_cert
  api_ssl_key := app.api_ssl_key
  api_ssl_ciphers := app.api_ssl_ciphers
  api_ssl_dhparam := app.api_ssl_dhparam
  error_path := app.error_path
  error_target := app.error_target
  extra_public_nginx_config := app.extra_public_nginx_config
  client_max_body_size := app.client_max_body_size

/-- Modelled from the spec: the TLS directives a listener block gains when
its TLS flag is set (the repository's `nchp/templates/nginx.conf` is not
under `src/`; spec section 4.5 specifies an optional TLS block rendered
from the cert/key/cipher/dhparam fields). -/
def tlsBlock (cert key ciphers dhparam : String) : String :=
  "  ssl_certificate " ++ cert ++ ";\n  ssl_certificate_key " ++ key
    ++ ";\n  ssl_ciphers " ++ ciphers ++ ";\n"
    ++ (if dhparam ≠ "" then "  ssl_dhparam " ++ dhparam ++ ";\n" else "")

/-- Modelled from the spec: one forwarding block per extra proxy stream
(spec section 4.5). -/
def streamBlock (p : List Char × List Char) : String :=
  "server \x7b\n  listen " ++ (⟨p.1⟩ : String) ++ ";\n  proxy_pass "
    ++ (⟨p.2⟩ : String) ++ ";\n\x7d\n"

/-- Modelled from the spec: the fixed template `nchp/templates/nginx.conf`
is not under `src/`; this renderer follows spec section 4.5: a public
server block (listener, optional TLS block, client body-size limit,
default-target `proxy_pass`, extra raw config injected verbatim, access
log), an API server block (listener, optional TLS block, resolver,
auth-token check), and one block per proxy stream.  Every context field is
interpolated; nothing else (no timestamps, no randomness) enters the
document. -/
def render (ctx : RenderContext) : String :=
  "daemon off;\nerror_log stderr;\nhttp \x7b\n"
    ++ "access_log " ++ ctx.access_log_dest ++ ";\n"
    ++ "server \x7b\n  listen " ++ ctx.public_ip ++ ":" ++ toString ctx.public_port
    ++ (if ctx.public_ssl then " ssl" else "") ++ ";\n"
    ++ (if ctx.public_ssl then
          tlsBlock ctx.public_ssl_cert ctx.public_ssl_key
            ctx.public_ssl_ciphers ctx.public_ssl_dhparam
        else "")
    ++ "  client_max_body_size " ++ ctx.client_max_body_size ++ ";\n"
    ++ (if ctx.default_target ≠ "" then
          "  location / \x7b\n    proxy_pass " ++ ctx.default_target ++ ";\n  \x7d\n"
        else "")
    ++ ctx.extra_public_nginx_config ++ "\n\x7d\n"
    ++ "server \x7b\n  listen " ++ ctx.api_ip ++ ":" ++ toString ctx.api_port
    ++ (if ctx.api_ssl then " ssl" else "") ++ ";\n"
    ++ (if ctx.api_ssl then
          tlsBlock ctx.api_ssl_cert ctx.api_ssl_key
            ctx.api_ssl_ciphers ctx.api_ssl_dhparam
        else "")
    ++ "  resolver " ++ ctx.dns_resolver ++ ";\n"
    ++ "  auth_token " ++ ctx.authtoken ++ ";\n\x7d\n"
    ++ String.join (ctx.proxy_streams.map streamBlock)

/-- `build_nginx_conf` (app.py lines 213-289) as a state-passing function:
it returns the rendered document AND the application state after the call,
because line 239 assigns the normalized URL back to
`self.default_target`. -/
def build_nginx_conf (app : NCHPApp) (env : Env) : String × NCHPApp :=
  (render (buildContext app env),
   { app with default_target := normalizeStr app.default_target })

/-- The observable effect of `os.execle` at app.py line 298: the binary
path, the argument vector, and the environment of the replacement
process. -/
structure ExecCall where
  path : String
  argv : List String
  envMap : List (String × String)
deriving DecidableEq

/-- `start` (app.py lines 291-298): build the config, write it to a
temporary file (whose harness-chosen name is the `tmpName` parameter),
and replace the process image via
`os.execle(self.nginx_path, self.nginx_path, '-c', f.name, {})`.  Returns
the exec call together with the bytes written to the file. -/
def start (app : NCHPApp) (env : Env) (tmpName : String) : ExecCall × String :=
  let conf := (build_nginx_conf app env).1
  ({ path := app.nginx_path,
     argv := [app.nginx_path, "-c", tmpName],
     envMap := [] }, conf)

/-- `(a ++ b).data` unfolds to the concatenation of the data. -/
theorem strData_append (a b : String) : (a ++ b).data = a.data ++ b.data := rfl

/-- Does `pat` occur (contiguously) anywhere in the list? -/
def hasSub (pat : List Char) : List Char → Bool
  | [] => lStarts pat []
  | c :: rest => lStarts pat (c :: rest) || hasSub pat rest

theorem hasSub_append_right (a : List Char) {pat b : List Char}
    (h : hasSub pat b = true) : hasSub pat (a ++ b) = true := by
  induction a with
  | nil => exact h
  | cons c as ih =>
    simp only [List.cons_append, hasSub, Bool.or_eq_true]
    exact Or.inr ih

theorem hasSub_append_left {pat a : List Char} (b : List Char)
    (h : hasSub pat a = true) : hasSub pat (a ++ b) = true := by
  induction a with
  | nil =>
    cases pat with
    | nil =>
      cases b with
      | nil => exact h
      | cons c bs => simp [hasSub, lStarts]
    | cons x xs => exact absurd h (by simp [hasSub, lStarts])
  | cons c as ih =>
    simp only [hasSub, Bool.or_eq_true] at h
    simp only [List.cons_append, hasSub, Bool.or_eq_true]
    rcases h with h | h
    · exact Or.inl (by simpa using lStarts_append_right b h)
    · exact Or.inr (ih h)

/-- The TLS-directive marker searched for in rendered documents. -/
def sslPat : List Char := "ssl_certificate".toList

/-- A rendered TLS block always contains the marker. -/
theorem hasSub_tlsBlock (cert key ciphers dhparam : String) :
    hasSub sslPat (tlsBlock cert key ciphers dhparam).data = true := by
  have he : (tlsBlock cert key ciphers dhparam).data
      = "  ssl_certificate ".data ++
        (cert ++ (";\n  ssl_certificate_key " ++ key
          ++ ";\n  ssl_ciphers " ++ ciphers ++ ";\n"
          ++ (if dhparam ≠ "" then "  ssl_dhparam " ++ dhparam ++ ";\n" else ""))).data := by
    simp [tlsBlock, strData_append]
  rw [he]
  exact hasSub_append_left _ (by decide)

/-- Claim C5: for every configuration, the derived booleans placed in the
rendering context are true exactly when the corresponding certificate
path is non-empty; a listener with a non-empty certificate path makes the
TLS directives appear in the rendered document; with both certificate
paths empty the rendered document does not depend on the key, cipher-list
and dhparam fields at all; and the document rendered with empty
certificate paths contains no TLS directive. -/
theorem C5_tls_iff_cert (app : NCHPApp) (env : Env)
    (k c d ak ac ad : String) :
    ((buildContext app env).public_ssl = true ↔ app.public_ssl_cert ≠ "")
    ∧ ((buildContext app env).api_ssl = true ↔ app.api_ssl_cert ≠ "")
    ∧ (app.public_ssl_cert ≠ "" →
        hasSub sslPat ((build_nginx_conf app env).1).data = true)
    ∧ (app.api_ssl_cert ≠ "" →
        hasSub sslPat ((build_nginx_conf app env).1).data = true)
    ∧ (app.public_ssl_cert = "" → app.api_ssl_cert = "" →
        (build_nginx_conf
          { app with
            public_ssl_key := k
            public_ssl_ciphers := c
            public_ssl_dhparam := d
            api_ssl_key := ak
            api_ssl_ciphers := ac
            api_ssl_dhparam := ad } env).1
          = (build_nginx_conf app env).1)
    ∧ hasSub sslPat ((build_nginx_conf {} ⟨0o20620, 0, 0⟩).1).data = false := by
  refine ⟨?_, ?_, ?_, ?_, ?_, ?_⟩
  · simp [buildContext]
  · simp [buildContext]
  · intro h
    have hflag : decide (app.public_ssl_cert ≠ "") = true := decide_eq_true h
    simp only [build_nginx_conf, render, buildContext, hflag, eq_self_iff_true,
      if_true, strData_append, List.append_assoc]
    iterate 10 refine hasSub_append_right _ ?_
    exact hasSub_append_left _ (hasSub_tlsBlock _ _ _ _)
  · intro h
    have hflag : decide (app.api_ssl_cert ≠ "") = true := decide_eq_true h
    simp only [build_nginx_conf, render, buildContext, hflag, eq_self_iff_true,
      if_true, strData_append, List.append_assoc]
    iterate 23 refine hasSub_append_right _ ?_
    exact hasSub_append_left _ (hasSub_tlsBlock _ _ _ _)
  · intro h1 h2
    simp [build_nginx_conf, render, buildContext, h1, h2]
  · decide

/-- Claim C5 witness: with a public certificate configured the marker is
present; the final conjunct (no TLS directives with empty certificate
paths) is closed already. -/
theorem C5_witness :
    hasSub sslPat ((build_nginx_conf { public_ssl_cert := "/etc/cert.pem" }
        ⟨0o20620, 0, 0⟩).1).data = true :=
  (C5_tls_iff_cert { public_ssl_cert := "/etc/cert.pem" } ⟨0o20620, 0, 0⟩
    "" "" "" "" "" "").2.2.1 (by decide)

/-- Claim C6: the log-destination resolver returns the syslog descriptor
`syslog:server=unix:/dev/log,nohostname` exactly when the mode of
`/dev/stdout` has the stream-socket file-type bits
(`m & 0o170000 == 0o140000`), and the plain path `/dev/stdout` in every
other case. -/
theorem C6_access_log_dest (m : Nat) :
    (Nat.land m 0o170000 = 0o140000 →
      access_log_dest m = "syslog:server=unix:/dev/log,nohostname")
    ∧ (Nat.land m 0o170000 ≠ 0o140000 → access_log_dest m = "/dev/stdout") := by
  constructor <;> intro h <;> simp [access_log_dest, S_ISSOCK, h]

/-- Claim C6 witness: a socket mode (`0o140755`) gets the syslog
descriptor; a character-device mode (`0o20620`, a typical `/dev/stdout`)
gets the plain path. -/
theorem C6_witness :
    access_log_dest 0o140755 = "syslog:server=unix:/dev/log,nohostname"
    ∧ access_log_dest 0o20620 = "/dev/stdout" :=
  ⟨(C6_access_log_dest 0o140755).1 (by decide),
   (C6_access_log_dest 0o20620).2 (by decide)⟩

/-- Claim C7: config synthesis is deterministic — for a fixed application
state, two runs against ambient environments that agree on the one input
the synthesizer reads (the mode of `/dev/stdout`, feeding the log
destination) produce identical document text, whatever the wall clock and
randomness source do. -/
theorem C7_deterministic (app : NCHPApp) (e₁ e₂ : Env)
    (h : e₁.stdoutMode = e₂.stdoutMode) :
    (build_nginx_conf app e₁).1 = (build_nginx_conf app e₂).1 := by
  cases e₁ with
  | mk m₁ w₁ r₁ =>
    cases e₂ with
    | mk m₂ w₂ r₂ =>
      have hm : m₁ = m₂ := h
      subst hm
      rfl

/-- Claim C7 witness: two runs with different clocks and seeds yield the
same document. -/
theorem C7_witness :
    (build_nginx_conf {} ⟨0o20620, 17, 23⟩).1
      = (build_nginx_conf {} ⟨0o20620, 999, 1000⟩).1 :=
  C7_deterministic {} ⟨0o20620, 17, 23⟩ ⟨0o20620, 999, 1000⟩ rfl

/-- Claim C8 counterexample: `build_nginx_conf` does NOT leave the
configuration unchanged — with `default_target = "http://localhost:8000/"`
the field holds a different string after the call (the normalized URL is
assigned back to `self.default_target` at line 239). -/
theorem C8_counterexample :
    (build_nginx_conf { default_target := "http://localhost:8000/" } ⟨0, 0, 0⟩).2.default_target
      ≠ "http://localhost:8000/" := by decide

/-- Claim C8 (amended): the synthesizer mutates exactly one field of the
application state: `default_target` is overwritten with its normalized
value (a no-op only when the target is empty or normalization fixes it);
every other field is left unchanged. -/
theorem C8_amended_frame (app : NCHPApp) (env : Env) :
    (build_nginx_conf app env).2.default_target = normalizeStr app.default_target
    ∧ (build_nginx_conf app env).2.config_file = app.config_file
    ∧ (build_nginx_conf app env).2.dns_resolver = app.dns_resolver
    ∧ (build_nginx_conf app env).2.public_ip = app.public_ip
    ∧ (build_nginx_conf app env).2.public_port = app.public_port
    ∧ (build_nginx_conf app env).2.api_port = app.api_port
    ∧ (build_nginx_conf app env).2.api_ip = app.api_ip
    ∧ (build_nginx_conf app env).2.proxy_streams = app.proxy_streams
    ∧ (build_nginx_conf app env).2.auth_token = app.auth_token
    ∧ (build_nginx_conf app env).2.nginx_path = app.nginx_path
    ∧ (build_nginx_conf app env).2.public_ssl_cert = app.public_ssl_cert
    ∧ (build_nginx_conf app env).2.public_ssl_key = app.public_ssl_key
    ∧ (build_nginx_conf app env).2.public_ssl_ciphers = app.public_ssl_ciphers
    ∧ (build_nginx_conf app env).2.public_ssl_dhparam = app.public_ssl_dhparam
    ∧ (build_nginx_conf app env).2.api_ssl_cert = app.api_ssl_cert
    ∧ (build_nginx_conf app env).2.api_ssl_key = app.api_ssl_key
    ∧ (build_nginx_conf app env).2.api_ssl_ciphers = app.api_ssl_ciphers
    ∧ (build_nginx_conf app env).2.api_ssl_dhparam = app.api_ssl_dhparam
    ∧ (build_nginx_conf app env).2.error_path = app.error_path
    ∧ (build_nginx_conf app env).2.error_target = app.error_target
    ∧ (build_nginx_conf app env).2.extra_public_nginx_config = app.extra_public_nginx_config
    ∧ (build_nginx_conf app env).2.client_max_body_size = app.client_max_body_size :=
  ⟨rfl, rfl, rfl, rfl, rfl, rfl, rfl, rfl, rfl, rfl, rfl, rfl,
   rfl, rfl, rfl, rfl, rfl, rfl, rfl, rfl, rfl, rfl⟩

/-- Claim C10: the launcher replaces the process image with the engine
invoked as `[nginx_path, '-c', tempfile]` and an EMPTY environment
mapping (the final `{}` argument of `os.execle`), and the bytes written
to the temporary file are exactly the rendered document. -/
theorem C10_exec_argv_env (app : NCHPApp) (env : Env) (tmpName : String) :
    (start app env tmpName).1.argv = [app.nginx_path, "-c", tmpName]
    ∧ (start app env tmpName).1.envMap = []
    ∧ (start app env tmpName).1.path = app.nginx_path
    ∧ (start app env tmpName).2 = (build_nginx_conf app env).1 :=
  ⟨rfl, rfl, rfl, rfl⟩

end NCHP
